import Mathlib

/-!
Verification of the ears event-routing gateway against its specification.

The development shallowly embeds the Go sources: JSON payloads become an
inductive tree type, filters become pure functions from an event to a list
of emitted events together with the acknowledgement action they perform,
the in-memory routing table becomes an association list keyed by route
hash, and the HTTP handlers become state-passing functions parameterised
by oracles for their external collaborators (tenant storer, routing table
manager, jwt verifier, SQS and Discord clients).
-/

namespace Ears

/-! ## JSON-like payload values

Go events carry payloads produced by json.Unmarshal, i.e. trees of
null / bool / string / number / array / object. -/

inductive Value where
  | null
  | bool (b : Bool)
  | str (s : String)
  | num (n : Int)
  | arr (elems : List Value)
  | obj (fields : List (String × Value))

/-- Association-list lookup used for JSON objects and for Go maps keyed by
strings. -/
def lookupField : List (String × Value) → String → Option Value
  | [], _ => none
  | (k, v) :: rest, key => if k = key then some v else lookupField rest key

/-- Modelled from the spec: GetPathValue performs dotted JSON-pointer-like
navigation on the payload tree (the event package is not under src/).
Walks the given list of path segments through nested objects. -/
def getPathSegs : Value → List String → Option Value
  | v, [] => some v
  | Value.obj fields, seg :: rest =>
    match lookupField fields seg with
    | some v => getPathSegs v rest
    | none => none
  | _, _ :: _ => none

/-- Splits a character list at the dots, accumulating the current
segment in reverse. -/
def splitSegsAux : List Char → List Char → List String
  | [], acc => [String.mk acc.reverse]
  | c :: rest, acc =>
    if c = '.' then String.mk acc.reverse :: splitSegsAux rest []
    else splitSegsAux rest (c :: acc)

/-- Splits a dotted path into its non-empty segments, so that the empty
path and the path consisting of a single dot both denote the payload
root. -/
def pathSegments (path : String) : List String :=
  (splitSegsAux path.toList []).filter (fun s => s ≠ "")

/-- Modelled from the spec: event.GetPathValue. A Go nil interface result
(missing path or JSON null at the path) is represented as none. -/
def getPathValue (payload : Value) (path : String) : Option Value :=
  match getPathSegs payload (pathSegments path) with
  | some Value.null => none
  | r => r

/-- Replaces the value bound to a key in a JSON object, leaving the object
unchanged when the key is absent. -/
def setField : List (String × Value) → String → Value → List (String × Value)
  | [], _, _ => []
  | (k, v) :: rest, key, nv =>
    if k = key then (k, nv) :: rest else (k, v) :: setField rest key nv

/-- Modelled from the spec: the navigation underlying SetPathValue with
create=false; rewrites the value at the segment list when the path
exists and leaves the tree unchanged otherwise. -/
def setPathSegs : Value → List String → Value → Value
  | _, [], nv => nv
  | Value.obj fields, seg :: rest, nv =>
    match lookupField fields seg with
    | some v => Value.obj (setField fields seg (setPathSegs v rest nv))
    | none => Value.obj fields
  | v, _ :: _, _ => v

/-- Modelled from the spec: event.SetPathValue(path, v, false). -/
def setPathValue (payload : Value) (path : String) (v : Value) : Value :=
  setPathSegs payload (pathSegments path) v

/-! ## Events and filter outputs

A filter consumes one event and returns a list of emitted events; it may
also fire the terminal Ack or Nack callback on its input. Emitted events
are tagged by whether they are the original input event or an event
produced from it via Clone, which is what the acknowledgement-accounting
claims are about. -/

structure Event where
  payload : Value

/-- An event appearing in the output list of a filter: either the original
input event itself (payload possibly mutated in place) or a fresh clone
carrying the given payload. -/
inductive Emitted where
  | original (payload : Value)
  | cloned (payload : Value)

def Emitted.payload : Emitted → Value
  | original p => p
  | cloned p => p

def Emitted.isCloned : Emitted → Bool
  | original _ => false
  | cloned _ => true

/-- The terminal acknowledgement action a filter performed on its input
event during one Filter call. -/
inductive AckAction where
  | none
  | ack
  | nack (msg : String)

structure FilterOutput where
  events : List Emitted
  ackAction : AckAction

/-! ## The split filter (src/pkg/filter/split/split.go) -/

namespace Split

structure Config where
  path : String

/-- Embeds split.Filter.Filter for a non-nil filter: read the value at the
configured path; Nack on a missing value or a non-array; otherwise emit
one clone per array element, with that element as the new payload, and
Ack the input. -/
def Filter (cfg : Config) (evt : Event) : FilterOutput :=
  match getPathValue evt.payload cfg.path with
  | Option.none =>
    { events := [], ackAction := AckAction.nack ("nil object at path " ++ cfg.path) }
  | some v =>
    match v with
    | Value.arr elems =>
      { events := elems.map Emitted.cloned, ackAction := AckAction.ack }
    | _ =>
      { events := [], ackAction := AckAction.nack "split on non array type" }

end Split

/-! ## The modify filter (src/pkg/filter/modify/modify.go) -/

namespace Modify

structure Config where
  path : String
  paths : List String
  toUpper : Bool
  toLower : Bool

/-- One iteration of the path loop in modify.Filter.Filter: a missing or
non-string value at the path is skipped; a string value is upper- or
lower-cased in place according to the config. -/
def applyPath (cfg : Config) (payload : Value) (p : String) : Value :=
  match getPathValue payload p with
  | some (Value.str s) =>
    if cfg.toUpper then setPathValue payload p (Value.str s.toUpper)
    else if cfg.toLower then setPathValue payload p (Value.str s.toLower)
    else payload
  | some _ => payload
  | Option.none => payload

/-- Embeds modify.Filter.Filter for a non-nil filter: fold the path loop
over the concatenation of the single configured Path (when non-empty)
and the Paths list, then return the input event itself as the single
output; no Ack or Nack is fired. -/
def Filter (cfg : Config) (evt : Event) : FilterOutput :=
  let allPaths := (if cfg.path ≠ "" then [cfg.path] else []) ++ cfg.paths
  let newPayload := allPaths.foldl (applyPath cfg) evt.payload
  { events := [Emitted.original newPayload], ackAction := AckAction.none }

end Modify

/-! ## The in-memory routing table manager (src/cmd/main.go, internal part)

The Go routingTableIndex is a map from route hash to entry; it is
embedded as an association list whose order is the iteration order of
the range loops. The RoutingTableEntry type itself (its Hash and
Validate methods) is declared only through its callers in src/, so it is
modelled from the spec. -/

/-- Modelled from the spec: a routing table entry. The route hash (a
SHA-256 over the canonical config, a pure function of the entry) is
represented as a stored field, and Validate() is represented by its
result, none meaning success and some an error message. -/
structure RoutingTableEntry where
  hash : String
  validateErr : Option String
  name : String

abbrev RoutingTableIndex := List (String × RoutingTableEntry)

/-- Go map assignment m[k] = v on the association-list representation:
replace the existing binding for k in place, or append a new one. -/
def mapInsert : RoutingTableIndex → String → RoutingTableEntry → RoutingTableIndex
  | [], k, v => [(k, v)]
  | (k0, v0) :: rest, k, v =>
    if k0 = k then (k0, v) :: rest else (k0, v0) :: mapInsert rest k v

/-- Go delete(m, k) on the association-list representation. -/
def mapDelete : RoutingTableIndex → String → RoutingTableIndex
  | [], _ => []
  | (k0, v0) :: rest, k =>
    if k0 = k then rest else (k0, v0) :: mapDelete rest k

namespace InMemoryRoutingTableManager

/-- Embeds InMemoryRoutingTableManager.AddRoute: reject a nil entry,
run Validate, then assign the entry under its hash. Returns the error
(if any) paired with the table after the call. -/
def AddRoute (tbl : RoutingTableIndex) (entry : Option RoutingTableEntry) :
    Option String × RoutingTableIndex :=
  match entry with
  | Option.none => (some "missing routing table entry", tbl)
  | some e =>
    match e.validateErr with
    | some err => (some err, tbl)
    | Option.none => (Option.none, mapInsert tbl e.hash e)

/-- The loop body sequence of InMemoryRoutingTableManager.ReplaceAllRoutes
after the table has been reset: validate each entry and then, exactly as
written in the source, delete (not insert) its hash from the table. -/
def replaceLoop (tbl : RoutingTableIndex) :
    List RoutingTableEntry → Option String × RoutingTableIndex
  | [] => (Option.none, tbl)
  | e :: rest =>
    match e.validateErr with
    | some err => (some err, tbl)
    | Option.none => replaceLoop (mapDelete tbl e.hash) rest

/-- Embeds InMemoryRoutingTableManager.ReplaceAllRoutes: replace the table
with a fresh empty map, then run the validate-and-delete loop over the
given entries. -/
def ReplaceAllRoutes (_tbl : RoutingTableIndex) (entries : List RoutingTableEntry) :
    Option String × RoutingTableIndex :=
  replaceLoop [] entries

/-- Embeds InMemoryRoutingTableManager.GetAllRoutes: allocate a slice of
length len(m) of nil entries, then range over the map writing each entry
at index idx, where idx is initialised to 0 and never incremented. -/
def GetAllRoutes (tbl : RoutingTableIndex) : List (Option RoutingTableEntry) :=
  tbl.foldl (fun acc kv => acc.set 0 (some kv.2)) (List.replicate tbl.length Option.none)

end InMemoryRoutingTableManager

/-! ## The tenant config cache (src/unnamed/part_000, TenantCache)

Wall-clock time is passed explicitly: SetTenant stamps the entry with the
current Unix time and GetTenant compares the current time against the
stamp. -/

/-- Stand-in for tenant.Config: the tenant key identifies the tenant and
openEventApi is the field read by sendEventHandler. -/
structure TenantConfig where
  tenantKey : String
  openEventApi : Bool

/-- The constant TENANT_CACHE_TTL_SECS from src/unnamed/part_000. -/
def TENANT_CACHE_TTL_SECS : Int := 30

structure CachedTenantConfig where
  config : TenantConfig
  ts : Int

structure TenantCache where
  cache : List (String × CachedTenantConfig)
  ttlSecs : Int

/-- Embeds NewTenantCache. -/
def NewTenantCache (ttlSecs : Int) : TenantCache :=
  { cache := [], ttlSecs := ttlSecs }

/-- Association-list lookup for the tenant cache map. -/
def cacheLookup : List (String × CachedTenantConfig) → String → Option CachedTenantConfig
  | [], _ => none
  | (k, v) :: rest, key => if k = key then some v else cacheLookup rest key

/-- Go delete on the tenant cache map. -/
def cacheDelete : List (String × CachedTenantConfig) → String → List (String × CachedTenantConfig)
  | [], _ => []
  | (k0, v0) :: rest, k =>
    if k0 = k then rest else (k0, v0) :: cacheDelete rest k

/-- Go map assignment on the tenant cache map. -/
def cacheInsert : List (String × CachedTenantConfig) → String → CachedTenantConfig →
    List (String × CachedTenantConfig)
  | [], k, v => [(k, v)]
  | (k0, v0) :: rest, k, v =>
    if k0 = k then (k0, v) :: rest else (k0, v0) :: cacheInsert rest k v

namespace TenantCache

/-- Embeds TenantCache.SetTenant at Unix time now: a nil config is
ignored, otherwise the config is stored under its tenant key with the
current timestamp. -/
def SetTenant (c : TenantCache) (now : Int) (tenantConfig : Option TenantConfig) : TenantCache :=
  match tenantConfig with
  | none => c
  | some cfg =>
    { c with cache := cacheInsert c.cache cfg.tenantKey { config := cfg, ts := now } }

/-- Embeds TenantCache.GetTenant at Unix time now: empty id or missing
entry yields nil; an entry older than the constant TENANT_CACHE_TTL_SECS
(exactly as written in the source, not the configured ttlSecs field) is
deleted and nil is returned; otherwise the cached config is returned.
Returns the result paired with the cache state after the call. -/
def GetTenant (c : TenantCache) (now : Int) (tenantId : String) :
    Option TenantConfig × TenantCache :=
  if tenantId = "" then (none, c)
  else
    match cacheLookup c.cache tenantId with
    | none => (none, c)
    | some item =>
      if now - item.ts > TENANT_CACHE_TTL_SECS then
        (none, { c with cache := cacheDelete c.cache tenantId })
      else
        (some item.config, c)

end TenantCache

/-! ## The HTTP control-plane handlers (src/unnamed/part_000, APIManager)

Each handler becomes a state-passing function. External collaborators
reached through interfaces (tenant storer, routing table manager, jwt
verifier) are oracle functions supplied in an environment record; the
observable effects the claims are about (write-lock acquire/release
balance, RouteEvent invocations, tenant config deletions) are tracked in
explicit state. -/

structure TenantId where
  orgId : String
  appId : String

/-- Modelled from the spec: tenant.Id.Key(), a canonical string key for
the (orgId, appId) pair. -/
def TenantId.key (tid : TenantId) : String :=
  tid.orgId ++ "/" ++ tid.appId

/-- Modelled from the spec: orgId and appId match restricted regexes;
represented as non-empty alphanumeric identifiers. -/
def validTenantIdPart (s : String) : Bool :=
  !s.toList.isEmpty && s.toList.all (fun ch => ch.isAlphanum)

/-- String-valued URL variable lookup, with the Go zero value for a
missing variable. -/
def varLookup : List (String × String) → String → String
  | [], _ => ""
  | (k, v) :: rest, key => if k = key then v else varLookup rest key

inductive Response where
  | item (body : String)
  | apiErr (msg : String)

/-- Embeds the getTenant helper of src/unnamed/part_000: empty orgId then
empty appId are rejected first (in that order), then the appId and orgId
validators run (in that order). -/
def getTenant (vars : List (String × String)) : Except String TenantId :=
  let orgId := varLookup vars "orgId"
  let appId := varLookup vars "appId"
  if orgId = "" then Except.error "orgId empty"
  else if appId = "" then Except.error "appId empty"
  else if !validTenantIdPart appId then Except.error ("invalid app ID " ++ appId)
  else if !validTenantIdPart orgId then Except.error ("invalid org ID " ++ orgId)
  else Except.ok { orgId := orgId, appId := appId }

/-- Oracles for the APIManager collaborators: the tenant storer, the jwt
verifier and the routing table manager. Errors are carried as messages;
none or Except.ok means success. -/
structure Env where
  getConfig : TenantId → Except String TenantConfig
  verifyToken : String → String → String → TenantId → Option String
  getRoute : TenantId → String → Option String
  routeEvent : TenantId → String → Value → Except String String
  getAllTenantRoutes : TenantId → Except String (List String)
  deleteConfigErr : TenantId → Option String

/-- The mutable APIManager state the claims observe: the tenant cache,
the number of Lock and Unlock calls on the embedded RWMutex, and the
number of RouteEvent invocations. -/
structure ApiState where
  tenantCache : TenantCache
  lockAcquired : Nat
  lockReleased : Nat
  routeEventCalls : Nat

/-- An HTTP request as the handlers observe it: URL variables, the body
read result, the body unmarshal result (none when json.Unmarshal fails),
the bearer token, URL path and method. -/
structure Request where
  vars : List (String × String)
  bodyErr : Option String
  payload : Option Value
  bearerToken : String
  urlPath : String
  method : String

/-- The tail of sendEventHandler from the body read onward: body read
error, unmarshal error, missing route ID, GetRoute error, then
RouteEvent. -/
def sendEventBody (env : Env) (st : ApiState) (r : Request) (tid : TenantId) :
    Response × ApiState :=
  match r.bodyErr with
  | some e => (Response.apiErr e, st)
  | none =>
    match r.payload with
    | none => (Response.apiErr "cannot unmarshal request body", st)
    | some payload =>
      let routeId := varLookup r.vars "routeId"
      if routeId = "" then (Response.apiErr "missing route ID", st)
      else
        match env.getRoute tid routeId with
        | some e => (Response.apiErr e, st)
        | none =>
          let st1 := { st with routeEventCalls := st.routeEventCalls + 1 }
          match env.routeEvent tid routeId payload with
          | Except.error e => (Response.apiErr e, st1)
          | Except.ok traceId =>
            (Response.item ("routeId=" ++ routeId ++ ",tx.traceId=" ++ traceId), st1)

/-- The part of sendEventHandler after the tenant config has been
obtained: the Unlock call, then authentication when the tenant has not
opened the event API, then the body processing. -/
def sendEventAfterLock (env : Env) (st : ApiState) (r : Request) (tid : TenantId)
    (cfg : TenantConfig) : Response × ApiState :=
  let st1 := { st with lockReleased := st.lockReleased + 1 }
  if !cfg.openEventApi then
    match env.verifyToken r.bearerToken r.urlPath r.method tid with
    | some autherr => (Response.apiErr autherr, st1)
    | none => sendEventBody env st1 r tid
  else sendEventBody env st1 r tid

/-- Embeds APIManager.sendEventHandler: tenant extraction, Lock, tenant
cache lookup with storer fallback (the storer error path returns without
Unlock, exactly as the source does), Unlock, auth, body handling and
event routing. -/
def sendEventHandler (env : Env) (now : Int) (st : ApiState) (r : Request) :
    Response × ApiState :=
  match getTenant r.vars with
  | Except.error e => (Response.apiErr e, st)
  | Except.ok tid =>
    let st1 := { st with lockAcquired := st.lockAcquired + 1 }
    let res := TenantCache.GetTenant st1.tenantCache now tid.key
    let st2 := { st1 with tenantCache := res.2 }
    match res.1 with
    | some cfg => sendEventAfterLock env st2 r tid cfg
    | none =>
      match env.getConfig tid with
      | Except.error e => (Response.apiErr ("error getting tenant config: " ++ e), st2)
      | Except.ok cfg =>
        let st3 :=
          { st2 with tenantCache := TenantCache.SetTenant st2.tenantCache now (some cfg) }
        sendEventAfterLock env st3 r tid cfg

/-- The configured global webhook triple (ears.api.webhook.org, .app,
.routeId). -/
structure WebhookGlobals where
  org : String
  app : String
  routeId : String

/-- Embeds APIManager.webhookHandler (solution A in the source): reject
when any of the three configured values is empty, otherwise overwrite the
URL variables with the configured triple and delegate to
sendEventHandler. -/
def webhookHandler (env : Env) (now : Int) (st : ApiState) (g : WebhookGlobals)
    (r : Request) : Response × ApiState :=
  if g.org = "" || g.app = "" || g.routeId = "" then
    (Response.apiErr "no global webhook configured", st)
  else
    sendEventHandler env now st
      { r with vars := [("orgId", g.org), ("appId", g.app), ("routeId", g.routeId)] }

/-- The tenant config store as deleteTenantConfigHandler observes it:
the stored configs keyed by tenant key and the number of DeleteConfig
calls issued. -/
structure TenantStore where
  configs : List (String × TenantConfig)
  deleteCalls : Nat

/-- Removes the binding for a key from the stored configs. -/
def storeRemove : List (String × TenantConfig) → String → List (String × TenantConfig)
  | [], _ => []
  | (k0, v0) :: rest, k =>
    if k0 = k then rest else (k0, v0) :: storeRemove rest k

/-- Embeds APIManager.deleteTenantConfigHandler: tenant extraction, then
GetAllTenantRoutes; a non-empty route list is rejected with the
"tenant has routes" bad-request error before DeleteConfig is ever
called; otherwise DeleteConfig runs against the store. -/
def deleteTenantConfigHandler (env : Env) (store : TenantStore) (r : Request) :
    Response × TenantStore :=
  match getTenant r.vars with
  | Except.error e => (Response.apiErr e, store)
  | Except.ok tid =>
    match env.getAllTenantRoutes tid with
    | Except.error e => (Response.apiErr e, store)
    | Except.ok routeIds =>
      if routeIds.length > 0 then
        (Response.apiErr "tenant has routes", store)
      else
        let store1 :=
          { configs := storeRemove store.configs tid.key
            deleteCalls := store.deleteCalls + 1 }
        match env.deleteConfigErr tid with
        | some e => (Response.apiErr e, store1)
        | none => (Response.item tid.key, store1)

/-! ## The SQS receiver loop (src/pkg/plugins/sqs/receiver.go)

The polling goroutine of Receiver.Receive is embedded as a recursion
over a script of poll outcomes: each poll either fails at ReceiveMessage
or yields a batch of messages (each with its message id and body
unmarshal result) together with the outcome the DeleteMessageBatch call
would have. The embedding records how many polls were attempted, whether
the goroutine returned because of an error, and the payloads handed to
Trigger. -/

namespace Sqs

structure Message where
  id : String
  body : Option Value

inductive Poll where
  | recvErr (msg : String)
  | batch (msgs : List Message) (deleteErr : Option String)

structure LoopResult where
  pollsAttempted : Nat
  terminated : Bool
  triggered : List Value

/-- The per-batch message loop: append a delete entry for each first
occurrence of a message id, then unmarshal the body; an unmarshal error
makes the goroutine return immediately, otherwise the payload is
triggered. Returns the triggered payloads, the delete entries, and
whether the loop aborted. -/
def runBatch : List Message → List String → List Value → List Value × List String × Bool
  | [], entries, acc => (acc, entries, false)
  | m :: rest, entries, acc =>
    let entries1 := if m.id ∈ entries then entries else entries ++ [m.id]
    match m.body with
    | none => (acc, entries1, true)
    | some v => runBatch rest entries1 (acc ++ [v])

/-- Embeds the polling loop of Receiver.Receive over a script of poll
outcomes: a ReceiveMessage error returns from the goroutine, an
unmarshal error inside a batch returns, a DeleteMessageBatch error
(issued only when there are delete entries) returns; otherwise the loop
polls again. An exhausted script means the loop was still running. -/
def Receive : List Poll → LoopResult
  | [] => { pollsAttempted := 0, terminated := false, triggered := [] }
  | p :: rest =>
    match p with
    | Poll.recvErr _ => { pollsAttempted := 1, terminated := true, triggered := [] }
    | Poll.batch msgs deleteErr =>
      match runBatch msgs [] [] with
      | (vals, entries, aborted) =>
        if aborted then { pollsAttempted := 1, terminated := true, triggered := vals }
        else if entries.length > 0 && deleteErr.isSome then
          { pollsAttempted := 1, terminated := true, triggered := vals }
        else
          let r := Receive rest
          { pollsAttempted := r.pollsAttempted + 1
            terminated := r.terminated
            triggered := vals ++ r.triggered }

end Sqs

/-! ## The Discord sender (src/pkg/plugins/discord/sender.go)

Send is embedded as a function of the payload and of the outcome the
ChannelMessageSendComplex call would have; its result records the
terminal action performed on the event, including the Go runtime panic
raised by the unchecked type assertion payload.(map[string]interface) on
a non-map payload. -/

namespace Discord

inductive SendOutcome where
  | panicked
  | nacked (msg : String)
  | acked

/-- Embeds discord Sender.Send: the unchecked outer type assertion panics
on any non-map payload; a map without a string under the content key
Nacks with the bad-input error; a channel send error Nacks with that
error; otherwise the event is Acked. -/
def Send (channelSendErr : Option String) (payload : Value) : SendOutcome :=
  match payload with
  | Value.obj fields =>
    match lookupField fields "content" with
    | some (Value.str _) =>
      match channelSendErr with
      | some e => SendOutcome.nacked e
      | none => SendOutcome.acked
    | _ => SendOutcome.nacked "Bad input for discord message"
  | _ => SendOutcome.panicked

end Discord

/-! ## Theorems -/

/-- The payload of a clone is the payload it was created with. -/
theorem payload_cloned (p : Value) : Emitted.payload (Emitted.cloned p) = p := rfl

/-- Mapping payload extraction over a list of clones recovers the list of
payloads. -/
theorem map_payload_cloned (l : List Value) :
    (l.map Emitted.cloned).map Emitted.payload = l := by
  induction l with
  | nil => rfl
  | cons a t ih => simpa [payload_cloned] using ih

/-- Claim C1: for every event given to the split filter, an array of
length k at the configured path yields exactly k output events whose
payloads are the array elements in order and a single Ack of the input;
a missing value or a non-array value yields no output events and a
single Nack, never an Ack. -/
theorem split_Filter_spec (cfg : Split.Config) (evt : Event) :
    (∀ elems, getPathValue evt.payload cfg.path = some (Value.arr elems) →
      (Split.Filter cfg evt).events.map Emitted.payload = elems ∧
      (Split.Filter cfg evt).events.length = elems.length ∧
      (Split.Filter cfg evt).ackAction = AckAction.ack) ∧
    (getPathValue evt.payload cfg.path = Option.none →
      (Split.Filter cfg evt).events = [] ∧
      (Split.Filter cfg evt).ackAction
        = AckAction.nack ("nil object at path " ++ cfg.path)) ∧
    (∀ v, getPathValue evt.payload cfg.path = some v → (∀ l, v ≠ Value.arr l) →
      (Split.Filter cfg evt).events = [] ∧
      (Split.Filter cfg evt).ackAction = AckAction.nack "split on non array type") := by
  refine ⟨?_, ?_, ?_⟩
  · intro elems h
    refine ⟨?_, ?_, ?_⟩
    · simpa [Split.Filter, h] using map_payload_cloned elems
    · simp [Split.Filter, h]
    · simp [Split.Filter, h]
  · intro h
    constructor <;> simp [Split.Filter, h]
  · intro v h hv
    cases v with
    | arr l => exact absurd rfl (hv l)
    | null => constructor <;> simp [Split.Filter, h]
    | bool b => constructor <;> simp [Split.Filter, h]
    | str s => constructor <;> simp [Split.Filter, h]
    | num n => constructor <;> simp [Split.Filter, h]
    | obj fields => constructor <;> simp [Split.Filter, h]

/-- Witness for claim C1: the split filter evaluated on a concrete
two-element root array and on a concrete event missing the configured
path. -/
theorem split_Filter_spec_witness :
    ((Split.Filter { path := "" } { payload := Value.arr [Value.num 1, Value.num 2] }).events.map
        Emitted.payload = [Value.num 1, Value.num 2] ∧
      (Split.Filter { path := "" } { payload := Value.arr [Value.num 1, Value.num 2] }).events.length
        = 2 ∧
      (Split.Filter { path := "" } { payload := Value.arr [Value.num 1, Value.num 2] }).ackAction
        = AckAction.ack) ∧
    ((Split.Filter { path := "foo" } { payload := Value.str "x" }).events = [] ∧
      (Split.Filter { path := "foo" } { payload := Value.str "x" }).ackAction
        = AckAction.nack ("nil object at path " ++ "foo")) := by
  refine ⟨?_, ?_⟩
  · exact (split_Filter_spec { path := "" }
      { payload := Value.arr [Value.num 1, Value.num 2] }).1 [Value.num 1, Value.num 2] rfl
  · exact (split_Filter_spec { path := "foo" } { payload := Value.str "x" }).2.1 rfl

/-- Claim C4 counterexample: the modify filter on a concrete event emits
the original input event itself, not a clone, so it is not true that
every built-in filter only ever emits clones. -/
theorem modify_emits_original_counterexample :
    (Modify.Filter { path := "foo", paths := [], toUpper := false, toLower := false }
        { payload := Value.obj [("foo", Value.str "bar")] }).events
      = [Emitted.original (Value.obj [("foo", Value.str "bar")])] ∧
    ((Modify.Filter { path := "foo", paths := [], toUpper := false, toLower := false }
        { payload := Value.obj [("foo", Value.str "bar")] }).events.all
        Emitted.isCloned) = false := by
  exact ⟨rfl, rfl⟩

/-- Every event in the output of the split filter is a clone. -/
theorem split_all_cloned (cfg : Split.Config) (evt : Event) :
    (Split.Filter cfg evt).events.all Emitted.isCloned = true := by
  unfold Split.Filter
  cases h : getPathValue evt.payload cfg.path with
  | none => rfl
  | some v =>
    cases v with
    | arr l =>
      simp only [List.all_eq_true]
      intro e he
      rcases List.mem_map.mp he with ⟨p, _, hp⟩
      simp [← hp, Emitted.isCloned]
    | null => rfl
    | bool b => rfl
    | str s => rfl
    | num n => rfl
    | obj fields => rfl

/-- The split filter always fires a terminal action on its input. -/
theorem split_acks_or_nacks (cfg : Split.Config) (evt : Event) :
    (Split.Filter cfg evt).ackAction ≠ AckAction.none := by
  unfold Split.Filter
  cases h : getPathValue evt.payload cfg.path with
  | none => simp
  | some v => cases v <;> simp

/-- Claim C4 amended: the split filter emits only clones and never the
original input, and whenever it emits zero events it has Acked or Nacked
the input exactly once; the modify filter, by contrast, always emits
exactly one event and that event is the original input itself (payload
possibly mutated in place), never a clone. -/
theorem filters_emit_discipline (scfg : Split.Config) (mcfg : Modify.Config)
    (evt evt2 : Event) :
    ((Split.Filter scfg evt).events.all Emitted.isCloned = true) ∧
    ((Split.Filter scfg evt).events = [] →
      (Split.Filter scfg evt).ackAction ≠ AckAction.none) ∧
    (∃ p, (Modify.Filter mcfg evt2).events = [Emitted.original p]) := by
  refine ⟨split_all_cloned scfg evt, fun _ => split_acks_or_nacks scfg evt, ?_⟩
  exact ⟨_, rfl⟩

/-- Witness for amended claim C4: the split filter on a concrete
non-array event emits zero events and Nacks; the modify filter on a
concrete event emits the original. -/
theorem filters_emit_discipline_witness :
    ((Split.Filter { path := "" } { payload := Value.str "x" }).events.all
        Emitted.isCloned = true) ∧
    ((Split.Filter { path := "" } { payload := Value.str "x" }).ackAction
      ≠ AckAction.none) ∧
    (∃ p, (Modify.Filter { path := "", paths := [], toUpper := false, toLower := false }
        { payload := Value.null }).events = [Emitted.original p]) := by
  have h := filters_emit_discipline { path := "" }
    { path := "", paths := [], toUpper := false, toLower := false }
    { payload := Value.str "x" } { payload := Value.null }
  exact ⟨h.1, h.2.1 rfl, h.2.2⟩

/-- Claim C2 evaluation: ReplaceAllRoutes with a single valid entry
leaves the routing table empty (the loop deletes instead of inserting),
and GetAllRoutes on a two-entry table returns the last entry at index 0
and nil for the rest (idx is never incremented), so the live set after
ReplaceAllRoutes does not contain the given entries and GetAllRoutes
does not return each entry exactly once. -/
theorem inMemory_replaceAllRoutes_getAllRoutes_eval :
    InMemoryRoutingTableManager.ReplaceAllRoutes
        [("h0", { hash := "h0", validateErr := Option.none, name := "old" })]
        [{ hash := "h1", validateErr := Option.none, name := "r1" }]
      = (Option.none, []) ∧
    InMemoryRoutingTableManager.GetAllRoutes
        [("h1", { hash := "h1", validateErr := Option.none, name := "r1" }),
         ("h2", { hash := "h2", validateErr := Option.none, name := "r2" })]
      = [some { hash := "h2", validateErr := Option.none, name := "r2" }, Option.none] := by
  exact ⟨rfl, rfl⟩

/-- Go map assignment with the same key and value twice is the same as
assigning once. -/
theorem mapInsert_idem (m : RoutingTableIndex) (k : String) (v : RoutingTableEntry) :
    mapInsert (mapInsert m k v) k v = mapInsert m k v := by
  induction m with
  | nil => simp [mapInsert]
  | cons kv rest ih =>
    obtain ⟨k0, v0⟩ := kv
    by_cases hk : k0 = k <;> simp [mapInsert, hk, ih]

/-- Claim C3: AddRoute with a valid entry succeeds, and a second AddRoute
with the same entry succeeds and is a no-op: the table (hence also its
entry count) after the second call is identical to the table after the
first call. -/
theorem addRoute_idempotent (tbl : RoutingTableIndex) (e : RoutingTableEntry)
    (h : e.validateErr = Option.none) :
    (InMemoryRoutingTableManager.AddRoute tbl (some e)).1 = Option.none ∧
    InMemoryRoutingTableManager.AddRoute
        (InMemoryRoutingTableManager.AddRoute tbl (some e)).2 (some e)
      = InMemoryRoutingTableManager.AddRoute tbl (some e) := by
  constructor
  · simp [InMemoryRoutingTableManager.AddRoute, h]
  · simp [InMemoryRoutingTableManager.AddRoute, h, mapInsert_idem]

/-- Witness for claim C3: AddRoute twice with a concrete valid entry on
the empty table. -/
theorem addRoute_idempotent_witness :
    (InMemoryRoutingTableManager.AddRoute []
        (some { hash := "h", validateErr := Option.none, name := "r" })).1 = Option.none ∧
    InMemoryRoutingTableManager.AddRoute
        (InMemoryRoutingTableManager.AddRoute []
          (some { hash := "h", validateErr := Option.none, name := "r" })).2
        (some { hash := "h", validateErr := Option.none, name := "r" })
      = InMemoryRoutingTableManager.AddRoute []
          (some { hash := "h", validateErr := Option.none, name := "r" }) :=
  addRoute_idempotent [] { hash := "h", validateErr := Option.none, name := "r" } rfl

/-- Claim C5 evaluation: a TenantCache constructed with ttlSecs = 5 still
returns an entry that is 10 seconds old, because GetTenant compares the
age against the constant TENANT_CACHE_TTL_SECS = 30 instead of the
configured ttlSecs field; conversely a cache constructed with
ttlSecs = 100 drops an entry that is only 50 seconds old. -/
theorem tenantCache_ttl_constant_eval :
    (TenantCache.GetTenant
        (TenantCache.SetTenant (NewTenantCache 5) 100
          (some { tenantKey := "t", openEventApi := false }))
        110 "t").1
      = some { tenantKey := "t", openEventApi := false } ∧
    (TenantCache.GetTenant
        (TenantCache.SetTenant (NewTenantCache 100) 100
          (some { tenantKey := "t", openEventApi := false }))
        150 "t").1
      = Option.none := by
  exact ⟨rfl, rfl⟩

/-- Claim C6: when the global webhook org, app and routeId are all
configured, the webhook handler behaves exactly like sendEventHandler
invoked with the URL variables set to the configured triple (the very
request shape a POST to the tenant route event path produces); when any
of the three is empty, the handler answers with the configured-webhook
error and leaves the state, in particular the RouteEvent call count,
untouched. -/
theorem webhook_alias (env : Env) (now : Int) (st : ApiState) (g : WebhookGlobals)
    (r : Request) :
    (g.org ≠ "" → g.app ≠ "" → g.routeId ≠ "" →
      webhookHandler env now st g r
        = sendEventHandler env now st
            { r with vars := [("orgId", g.org), ("appId", g.app), ("routeId", g.routeId)] }) ∧
    ((g.org = "" ∨ g.app = "" ∨ g.routeId = "") →
      webhookHandler env now st g r = (Response.apiErr "no global webhook configured", st)) := by
  constructor
  · intro h1 h2 h3
    simp [webhookHandler, h1, h2, h3]
  · intro h
    rcases h with h | h | h <;> simp [webhookHandler, h]

/-- A collaborator environment for concrete evaluations: an open tenant,
a verifier and route lookup that succeed, and an event router returning
a fixed trace id. -/
def envOk : Env :=
  { getConfig := fun _ => Except.ok { tenantKey := "comcast/gears", openEventApi := true }
    verifyToken := fun _ _ _ _ => none
    getRoute := fun _ _ => none
    routeEvent := fun _ _ _ => Except.ok "trace1"
    getAllTenantRoutes := fun _ => Except.ok []
    deleteConfigErr := fun _ => none }

/-- The initial APIManager state for concrete evaluations. -/
def st0 : ApiState :=
  { tenantCache := NewTenantCache 30
    lockAcquired := 0
    lockReleased := 0
    routeEventCalls := 0 }

/-- A concrete event POST request with no URL variables, as arriving on
the global /ears/v1/events path. -/
def reqEvents : Request :=
  { vars := []
    bodyErr := none
    payload := some (Value.obj [("k", Value.num 1)])
    bearerToken := ""
    urlPath := "/ears/v1/events"
    method := "POST" }

/-- Witness for claim C6: with the configured triple (comcast, gears,
gearsWebhook), the webhook handler on the bare events request equals
sendEventHandler on the request with the three URL variables set, and
with an empty org the webhook handler reports the configuration error. -/
theorem webhook_alias_witness :
    webhookHandler envOk 0 st0 { org := "comcast", app := "gears", routeId := "gearsWebhook" }
        reqEvents
      = sendEventHandler envOk 0 st0
          { reqEvents with
            vars := [("orgId", "comcast"), ("appId", "gears"), ("routeId", "gearsWebhook")] } ∧
    webhookHandler envOk 0 st0 { org := "", app := "gears", routeId := "gearsWebhook" }
        reqEvents
      = (Response.apiErr "no global webhook configured", st0) := by
  constructor
  · exact (webhook_alias envOk 0 st0
      { org := "comcast", app := "gears", routeId := "gearsWebhook" } reqEvents).1
      (by decide) (by decide) (by decide)
  · exact (webhook_alias envOk 0 st0
      { org := "", app := "gears", routeId := "gearsWebhook" } reqEvents).2 (Or.inl rfl)

/-- Claim C7 evaluation: in the SQS receive loop, a ReceiveMessage error,
a message-body unmarshal error, and a DeleteMessageBatch error each make
the polling goroutine return after the current poll, regardless of the
remaining script — the loop terminates instead of logging and
continuing after a bounded backoff. -/
theorem sqsReceive_error_terminates (e : String) (id : String) (v : Value)
    (rest : List Sqs.Poll) :
    Sqs.Receive (Sqs.Poll.recvErr e :: rest)
      = { pollsAttempted := 1, terminated := true, triggered := [] } ∧
    Sqs.Receive (Sqs.Poll.batch [{ id := id, body := Option.none }] Option.none :: rest)
      = { pollsAttempted := 1, terminated := true, triggered := [] } ∧
    Sqs.Receive (Sqs.Poll.batch [{ id := id, body := some v }] (some e) :: rest)
      = { pollsAttempted := 1, terminated := true, triggered := [v] } := by
  refine ⟨rfl, ?_, ?_⟩
  · simp [Sqs.Receive, Sqs.runBatch]
  · simp [Sqs.Receive, Sqs.runBatch]

/-- Claim C8 evaluation: the Discord sender Nacks a map payload without a
string content and Nacks on a channel send error, Acks on success, but
on any non-map payload the unchecked type assertion panics, so neither
Ack nor Nack is called on such an event. -/
theorem discordSend_outcomes_eval :
    Discord.Send Option.none (Value.str "hello") = Discord.SendOutcome.panicked ∧
    Discord.Send Option.none Value.null = Discord.SendOutcome.panicked ∧
    Discord.Send Option.none (Value.obj [("content", Value.str "hi")])
      = Discord.SendOutcome.acked ∧
    Discord.Send (some "send failed") (Value.obj [("content", Value.str "hi")])
      = Discord.SendOutcome.nacked "send failed" ∧
    Discord.Send Option.none (Value.obj [("other", Value.num 1)])
      = Discord.SendOutcome.nacked "Bad input for discord message" ∧
    Discord.Send Option.none (Value.obj [("content", Value.num 1)])
      = Discord.SendOutcome.nacked "Bad input for discord message" := by
  exact ⟨rfl, rfl, rfl, rfl, rfl, rfl⟩

/-- A collaborator environment whose tenant storer fails. -/
def envStorerDown : Env :=
  { getConfig := fun _ => Except.error "storer down"
    verifyToken := fun _ _ _ _ => none
    getRoute := fun _ _ => none
    routeEvent := fun _ _ _ => Except.ok "trace1"
    getAllTenantRoutes := fun _ => Except.ok []
    deleteConfigErr := fun _ => none }

/-- A concrete event POST request addressed to a tenant route. -/
def reqRoute : Request :=
  { vars := [("orgId", "comcast"), ("appId", "gears"), ("routeId", "r1")]
    bodyErr := none
    payload := some (Value.obj [("k", Value.num 1)])
    bearerToken := ""
    urlPath := "/ears/v1/orgs/comcast/applications/gears/routes/r1/event"
    method := "POST" }

/-- Claim C9 evaluation: on the control path where the tenant config is
not cached and the tenant storer fails, sendEventHandler returns having
acquired the APIManager write lock once and released it zero times — the
error path returns without Unlock. -/
theorem sendEventHandler_lock_leak_eval :
    (sendEventHandler envStorerDown 0 st0 reqRoute).2.lockAcquired = 1 ∧
    (sendEventHandler envStorerDown 0 st0 reqRoute).2.lockReleased = 0 ∧
    (sendEventHandler envStorerDown 0 st0 reqRoute).1
      = Response.apiErr "error getting tenant config: storer down" := by
  exact ⟨rfl, rfl, rfl⟩

/-- Claim C10: whenever the tenant resolves and the routing table manager
reports a non-empty route list for it, deleteTenantConfigHandler answers
with the bad-request error for a tenant that still has routes and
returns the tenant config store unchanged — DeleteConfig is never
called. -/
theorem deleteTenantConfig_guard (env : Env) (store : TenantStore) (r : Request)
    (tid : TenantId) (routeIds : List String)
    (htid : getTenant r.vars = Except.ok tid)
    (hroutes : env.getAllTenantRoutes tid = Except.ok routeIds)
    (hne : routeIds ≠ []) :
    deleteTenantConfigHandler env store r = (Response.apiErr "tenant has routes", store) := by
  have hlen : 0 < routeIds.length := List.length_pos.mpr hne
  simp [deleteTenantConfigHandler, htid, hroutes, hlen]

/-- A collaborator environment whose routing table manager reports one
route for every tenant. -/
def envHasRoutes : Env :=
  { getConfig := fun _ => Except.ok { tenantKey := "comcast/gears", openEventApi := true }
    verifyToken := fun _ _ _ _ => none
    getRoute := fun _ _ => none
    routeEvent := fun _ _ _ => Except.ok "trace1"
    getAllTenantRoutes := fun _ => Except.ok ["r1"]
    deleteConfigErr := fun _ => none }

/-- A concrete tenant config store holding one tenant. -/
def storeOne : TenantStore :=
  { configs := [("comcast/gears", { tenantKey := "comcast/gears", openEventApi := true })]
    deleteCalls := 0 }

/-- Witness for claim C10: deleting the config of a concrete tenant that
still has one route answers the tenant-has-routes error and leaves the
store untouched. -/
theorem deleteTenantConfig_guard_witness :
    deleteTenantConfigHandler envHasRoutes storeOne
        { vars := [("orgId", "comcast"), ("appId", "gears")]
          bodyErr := none
          payload := none
          bearerToken := ""
          urlPath := "/ears/v1/orgs/comcast/applications/gears/config"
          method := "DELETE" }
      = (Response.apiErr "tenant has routes", storeOne) := by
  exact deleteTenantConfig_guard envHasRoutes storeOne
    { vars := [("orgId", "comcast"), ("appId", "gears")]
      bodyErr := none
      payload := none
      bearerToken := ""
      urlPath := "/ears/v1/orgs/comcast/applications/gears/config"
      method := "DELETE" }
    { orgId := "comcast", appId := "gears" } ["r1"] rfl rfl (by decide)

end Ears
